import Mathlib

/-!
Verification of the quarkchain cluster control plane: a shallow embedding of
`quarkchain/cluster/master.py`, `quarkchain/cluster/cluster.py`,
`quarkchain/db.py` and `quarkchain/p2p/p2p_network.py`, together with theorems
settling the specification claims about bring-up, supervision, connection
retry, peer refresh and the overlay database.
-/

namespace QuarkChain

/-! ## Shard masks and slave configuration -/

/-- Modelled from the spec: `is_shard_in_mask` lives in `quarkchain/utils.py`,
which is not among the sources; the spec describes a ShardMask as a
bitmask-with-bit-count encoding where a shard ID belongs to the mask iff the
shard ID's low bits match the mask's fixed pattern after the mask's highest
set bit is treated as a separator. -/
def topBitAux : Nat → Nat → Nat
  | 0, _ => 1
  | fuel + 1, n => if n ≤ 1 then 1 else 2 * topBitAux fuel (n / 2)

/-- The value of the highest set bit of a positive number (1 for 0 and 1). -/
def topBit (n : Nat) : Nat := topBitAux n n

def is_shard_in_mask (shardId mask : Nat) : Bool :=
  let sep := topBit mask
  shardId % sep == mask - sep

/-- One entry of `ClusterConfig.getSlaveInfoList` (`master.py`): the slave's
configured identity, address and shard mask list. -/
structure SlaveInfo where
  id : String
  ip : Nat
  port : Nat
  shardMaskList : List Nat
deriving DecidableEq, Repr

/-- `SlaveConnection.hasShard` (`master.py` lines 41-45): the handle covers a
shard iff some mask in its shard mask list contains it. -/
def hasShard (shardMaskList : List Nat) (shardId : Nat) : Bool :=
  shardMaskList.any (fun m => is_shard_in_mask shardId m)

/-! ## Master bring-up state (`MasterServer`, master.py)

The master's mutable bring-up state: the active slave pool, the
shard-to-slaves assignment table (one entry per shard ID) and whether
`MasterServer.shutdown` (`loop.stop()`) has been requested.  A slave handle is
identified by its configured `SlaveInfo` since `SlaveConnection` is
constructed from the config entry (master.py line 121). -/

structure MasterState where
  shardToSlaves : List (List SlaveInfo)
  slavePool : List SlaveInfo
  shutdownCalled : Bool
deriving DecidableEq, Repr

/-- Map a function over a list together with the element's position, starting
from a given index. -/
def mapWithIndex (f : Nat → α → β) : Nat → List α → List β
  | _, [] => []
  | i, a :: rest => f i a :: mapWithIndex f (i + 1) rest

/-- The per-slave body of `MasterServer.__connectToSlaves` (master.py lines
117-137): connect, wait active, send a ping, compare the returned id and shard
mask list against the config entry (calling `shutdown` on mismatch), then add
the handle to the slave pool and to every covered row of `shardToSlaves`.
`pingOf` is the oracle giving each slave's response to the identity RPC. -/
def connectSlaveStep (pingOf : SlaveInfo → String × List Nat)
    (st : MasterState) (slaveInfo : SlaveInfo) : MasterState :=
  let resp := pingOf slaveInfo
  let st1 := if resp.1 ≠ slaveInfo.id then { st with shutdownCalled := true } else st
  let st2 := if resp.2 ≠ slaveInfo.shardMaskList then { st1 with shutdownCalled := true } else st1
  { st2 with
    slavePool := st2.slavePool ++ [slaveInfo],
    shardToSlaves := mapWithIndex
      (fun shardId slaves =>
        if hasShard slaveInfo.shardMaskList shardId then slaves ++ [slaveInfo] else slaves)
      0 st2.shardToSlaves }

/-- `MasterServer.__connectToSlaves` (master.py lines 115-137): process each
configured slave in order.  Once `shutdown` (`loop.stop()`) has been
requested, the coroutine suspends forever at its next await, so later slaves
are not processed. -/
def connectToSlaves (pingOf : SlaveInfo → String × List Nat)
    (st : MasterState) : List SlaveInfo → MasterState
  | [] => st
  | slaveInfo :: rest =>
    if st.shutdownCalled then st
    else connectToSlaves pingOf (connectSlaveStep pingOf st slaveInfo) rest

/-- `MasterServer.__hasAllShards` (master.py lines 98-100): every row of the
assignment table is non-empty. -/
def hasAllShards (st : MasterState) : Bool :=
  st.shardToSlaves.all (fun slaves => !slaves.isEmpty)

/-- The initial master state (master.py lines 92-93): an empty slave list per
shard and an empty pool. -/
def initialMasterState (shardSize : Nat) : MasterState :=
  ⟨List.replicate shardSize [], [], false⟩

/-- `MasterServer.__initCluster` (master.py lines 153-159): run the connect
phase, then attempt the mesh phase (`__setupSlaveToSlaveConnections`) iff the
connect phase ran to completion and `__hasAllShards` holds; a coverage gap
returns early.  Returns the post-connect state and whether the mesh phase was
attempted. -/
def initCluster (pingOf : SlaveInfo → String × List Nat)
    (config : List SlaveInfo) (shardSize : Nat) : MasterState × Bool :=
  let st := connectToSlaves pingOf (initialMasterState shardSize) config
  if st.shutdownCalled then (st, false)
  else if hasAllShards st then (st, true)
  else (st, false)

/-! ## Process supervisor (`cluster.py`)

The supervisor's environment is the OS process table: `table` is the set of
processes existing when `psutil` enumerates children, and `aliveAtSignal`
tells whether a given pid still exists when the signal is actually sent
(a process may exit and be reaped between the two). Per the psutil contract,
`Process.send_signal` raises `NoSuchProcess` when the target no longer
exists. -/

structure Proc where
  pid : Nat
  ppid : Nat
deriving DecidableEq, Repr

structure ProcEnv where
  table : List Proc
  aliveAtSignal : Nat → Bool

/-- Look up a process by pid in the table (psutil `Process(pid)`). -/
def lookupProc (t : List Proc) (pid : Nat) : Option Proc :=
  t.find? (fun p => p.pid == pid)

/-- Whether following the parent chain from `pid` reaches `root` (with fuel
bounding the walk). -/
def reachesRoot (t : List Proc) (root : Nat) : Nat → Nat → Bool
  | _, 0 => false
  | pid, fuel + 1 =>
    match lookupProc t pid with
    | none => false
    | some p => p.ppid == root || reachesRoot t root p.ppid fuel

/-- psutil `parent.children(recursive=True)`: every process in the table whose
ancestor chain reaches `root`. -/
def childrenRecursive (t : List Proc) (root : Nat) : List Proc :=
  t.filter (fun p => reachesRoot t root p.pid (t.length + 1))

/-- psutil `Process.send_signal`: delivers the signal if the target still
exists, otherwise raises `NoSuchProcess`. -/
def send_signal (env : ProcEnv) (pid sig : Nat) : Except String (Nat × Nat) :=
  if env.aliveAtSignal pid then Except.ok (pid, sig) else Except.error "NoSuchProcess"

/-- `kill_child_processes` (cluster.py lines 19-32): if the parent lookup
raises `NoSuchProcess` the exception is caught and the function returns;
otherwise every recursive child is signalled in turn.  The `try` block around
the command-line logging swallows logging failures, but `send_signal` sits
outside it, so its exception propagates.  Returns the list of
(pid, signal) deliveries performed.  The loop over the children is
`signalAll`; command-line logging failures are swallowed by the inner `try`
and need no modelling. -/
def signalAll (env : ProcEnv) (sig : Nat) (acc : List (Nat × Nat)) :
    List Proc → Except String (List (Nat × Nat))
  | [] => Except.ok acc
  | p :: rest =>
    match send_signal env p.pid sig with
    | Except.ok s => signalAll env sig (acc ++ [s]) rest
    | Except.error e => Except.error e

def kill_child_processes (env : ProcEnv) (parent_pid sig : Nat) :
    Except String (List (Nat × Nat)) :=
  match lookupProc env.table parent_pid with
  | none => Except.ok []
  | some _ => signalAll env sig [] (childrenRecursive env.table parent_pid)

/-- The SIGTERM signal number, the default of `kill_child_processes`. -/
def SIGTERM : Nat := 15

/-- The supervisor's observable state: the `Cluster.shutdownCalled` flag and
the log of signals delivered so far. -/
structure ClusterState where
  shutdownCalled : Bool
  signalled : List (Nat × Nat)
deriving DecidableEq, Repr

/-- `Cluster.shutdown` (cluster.py lines 133-135): set `shutdownCalled`, then
`kill_child_processes(os.getpid())`; an exception from the kill propagates. -/
def Cluster.shutdown (env : ProcEnv) (selfPid : Nat) (s : ClusterState) :
    Except String ClusterState :=
  let s1 : ClusterState := { s with shutdownCalled := true }
  match kill_child_processes env selfPid SIGTERM with
  | Except.ok sigs => Except.ok { s1 with signalled := s1.signalled ++ sigs }
  | Except.error e => Except.error e

/-- `Cluster.waitAndShutdown` (cluster.py lines 86-93): when a supervised
process exits, do nothing if shutdown was already initiated locally, otherwise
shut the whole cluster down. -/
def Cluster.waitAndShutdown (env : ProcEnv) (selfPid : Nat) (s : ClusterState) :
    Except String ClusterState :=
  if s.shutdownCalled then Except.ok s
  else Cluster.shutdown env selfPid s

/-! ## Master process spawning (`run_master`, cluster.py lines 42-56)

The command string is built by a `format` call whose second argument is the
bare name `dbPath`.  The names in scope in `run_master` are its parameters
(`configFilePath`, `dbPathRoot`, `serverPort`, `jsonRpcPort`, `seedHost`,
`seedPort`, `mine`, `clean`, `kwargs`) and the module globals; `dbPath` is
none of them, so evaluating it raises `NameError`.  Name resolution is
embedded explicitly: `resolveName` evaluates one name of the format argument
list to its string value, and `run_master` evaluates them left to right as
Python does before the format string is ever applied. -/

structure MasterArgs where
  configFilePath : String
  dbPathRoot : String
  serverPort : Nat
  jsonRpcPort : Nat
  seedHost : String
  seedPort : Nat
  mine : Bool
  clean : Bool
  kwargs : List (String × String)
deriving Repr

/-- Resolve one identifier appearing in the `run_master` format call against
the names in scope; an unbound name raises `NameError`. -/
def resolveName (args : MasterArgs) : String → Except String String
  | "configFilePath" => Except.ok args.configFilePath
  | "dbPathRoot" => Except.ok args.dbPathRoot
  | "serverPort" => Except.ok (toString args.serverPort)
  | "jsonRpcPort" => Except.ok (toString args.jsonRpcPort)
  | "seedHost" => Except.ok args.seedHost
  | "seedPort" => Except.ok (toString args.seedPort)
  | "kwargs" => Except.ok "kwargs"
  | n => Except.error ("NameError: name " ++ n ++ " is not defined")

/-- The identifiers of the positional arguments of the `format` call in
`run_master`, in source order: the second one is the unbound `dbPath`. -/
def run_master_format_names : List String :=
  ["configFilePath", "dbPath", "serverPort", "jsonRpcPort", "seedHost", "seedPort",
   "kwargs", "kwargs", "kwargs", "kwargs", "kwargs"]

/-- The command tokens `run_master` would pass to
`asyncio.create_subprocess_exec` once the format arguments are evaluated. -/
def masterCmdTokens (vals : List String) (mine devp2p clean : Bool) : List String :=
  match vals with
  | [v0, v1, v2, v3, v4, v5, v6, v7, v8, v9, v10] =>
    ["python", "master.py",
     "--cluster_config=" ++ v0, "--db_path_root=" ++ v1,
     "--server_port=" ++ v2, "--local_port=" ++ v3,
     "--seed_host=" ++ v4, "--seed_port=" ++ v5,
     "--devp2p_port=" ++ v6, "--devp2p_bootstrap_host=" ++ v7,
     "--devp2p_bootstrap_port=" ++ v8, "--devp2p_min_peers=" ++ v9,
     "--devp2p_max_peers=" ++ v10]
    ++ (if mine then ["--mine=true"] else [])
    ++ (if devp2p then ["--devp2p=true"] else [])
    ++ (if clean then ["--clean=true"] else [])
  | _ => []

/-- `run_master` (cluster.py lines 42-56): evaluate the format arguments left
to right, then build and spawn the command.  Evaluating the unbound name
`dbPath` raises before the command is built. -/
def run_master (args : MasterArgs) (devp2p : Bool) : Except String (List String) := do
  let vals ← run_master_format_names.mapM (resolveName args)
  Except.ok (masterCmdTokens vals args.mine devp2p args.clean)

/-! ## Slave-to-slave mesh phase (master.py) -/

/-- One entry of the `slaves` array of the cluster configuration file, as read
by `ClusterConfig` (master.py lines 15-25); `ip` is already the integer value
of the configured address string. -/
structure RawSlave where
  id : String
  ip : Nat
  port : Nat
  shard_masks : List Nat
deriving DecidableEq, Repr

/-- `ClusterConfig.getSlaveInfoList` (master.py lines 20-25): convert every
configured slave, in order, to a `SlaveInfo`. -/
def getSlaveInfoList (slaves : List RawSlave) : List SlaveInfo :=
  slaves.map (fun s => ⟨s.id, s.ip, s.port, s.shard_masks⟩)

/-- The `check` helper of `quarkchain.utils`: raises `AssertionError` when the
condition is false. -/
def check (b : Bool) : Except String Unit :=
  if b then Except.ok () else Except.error "AssertionError"

/-- `SlaveConnection.sendConnectToSlaves` (master.py lines 52-65): given the
target list sent and the slave's returned result list, check the lengths
match, then return `True` iff every per-target result is the empty string. -/
def sendConnectToSlaves (slaveInfoList : List SlaveInfo) (resultList : List String) :
    Except String Bool := do
  check (resultList.length == slaveInfoList.length)
  Except.ok (resultList.all (fun r => r.isEmpty))

/-- `MasterServer.__setupSlaveToSlaveConnections` (master.py lines 139-147):
for each slave of the pool, send the peer-mesh RPC whose payload is
`self.clusterConfig.getSlaveInfoList()` — the entire configured slave list —
and call `shutdown` when the slave reports failure.  `respOf` is the oracle
giving each slave's result list; `sent` accumulates the (recipient, payload)
pairs actually sent.  Once shutdown has been requested the coroutine freezes
at its next await, so later slaves are not processed. -/
def setupSlaveToSlaveConnections (config : List RawSlave)
    (respOf : SlaveInfo → List String) (st : MasterState)
    (sent : List (SlaveInfo × List SlaveInfo)) :
    List SlaveInfo → Except String (MasterState × List (SlaveInfo × List SlaveInfo))
  | [] => Except.ok (st, sent)
  | slave :: rest =>
    if st.shutdownCalled then Except.ok (st, sent)
    else
      match sendConnectToSlaves (getSlaveInfoList config) (respOf slave) with
      | Except.error e => Except.error e
      | Except.ok success =>
        setupSlaveToSlaveConnections config respOf
          (if success then st else { st with shutdownCalled := true })
          (sent ++ [(slave, getSlaveInfoList config)]) rest

/-! ## Connection retry (`MasterServer.__connect`, master.py lines 102-113) -/

/-- The retry loop of `MasterServer.__connect`: `attemptOf k` is the outcome
of the k-th `asyncio.open_connection` attempt (`none` meaning the attempt
raised); each failed attempt is followed by `asyncio.sleep(1)`.  `fuel` bounds
how far the unbounded source loop is unrolled.  On success, returns the
(reader, writer) pair together with the number of failed attempts, which
equals the number of one-second sleeps performed. -/
def connectAttempts (attemptOf : Nat → Option (Nat × Nat)) :
    Nat → Nat → Option ((Nat × Nat) × Nat)
  | _, 0 => none
  | k, fuel + 1 =>
    match attemptOf k with
    | some conn => some (conn, k)
    | none => connectAttempts attemptOf (k + 1) fuel

/-- `MasterServer.__connect`: run the retry loop from attempt 0. -/
def MasterServer.connect (attemptOf : Nat → Option (Nat × Nat)) (fuel : Nat) :
    Option ((Nat × Nat) × Nat) :=
  connectAttempts attemptOf 0 fuel

/-! ## Peer refresh (`P2PNetwork.refreshConnections`, p2p_network.py lines 215-247) -/

/-- One entry of `P2PNetwork.activePeerPool`. -/
structure PeerEntry where
  peerId : Nat
  ip : String
  port : Nat
deriving DecidableEq, Repr

/-- The address string of a peer, formatted as in the source. -/
def addrOf (p : PeerEntry) : String := p.ip ++ ":" ++ toString p.port

/-- `P2PNetwork.refreshConnections`: close every active peer whose address is
absent from the refreshed discovery list `peers`; then, among listed addresses
not already active, initiate an outbound connection exactly for those strictly
greater than the node's own address.  Returns the closed peers and the
addresses connections are initiated to. -/
def refreshConnections (selfIp : String) (selfPort : Nat)
    (activePeerPool : List PeerEntry) (peers : List String) :
    List PeerEntry × List String :=
  let to_be_disconnected := activePeerPool.filter (fun p => !(peers.contains (addrOf p)))
  let active := activePeerPool.map addrOf
  let to_be_connected := peers.filter (fun a => !(active.contains a))
  let self_ip_port := selfIp ++ ":" ++ toString selfPort
  (to_be_disconnected, to_be_connected.filter (fun a => decide (self_ip_port < a)))

/-! ## Overlay database (`OverlayDb`, db.py lines 251-279)

The wrapped store `_db` is kept as an explicit association list so that the
frame property — writes through the overlay never touch it — is an honest
statement about the state.  The overlay dict maps a key to `some v?`, where
`v?` is the stored value (`none` standing for the Python `None` written by
`delete`). -/

/-- `InMemoryDb.get`-style lookup of the wrapped store: the value of the first
binding of the key, if any. -/
def dbGet (db : List (Nat × Nat)) (key : Nat) : Option Nat :=
  (db.find? (fun kv => kv.1 == key)).map (fun kv => kv.2)

structure OverlayDb where
  _db : List (Nat × Nat)
  overlay : Nat → Option (Option Nat)

/-- `OverlayDb.get` (db.py lines 259-262): the overlay's value when the key is
present in the overlay, else the wrapped database's value. -/
def OverlayDb.get (o : OverlayDb) (key : Nat) : Option Nat :=
  match o.overlay key with
  | some v => v
  | none => dbGet o._db key

/-- `OverlayDb.put` (db.py lines 264-265): record the value in the overlay
only. -/
def OverlayDb.put (o : OverlayDb) (key value : Nat) : OverlayDb :=
  { o with overlay := fun k => if k = key then some (some value) else o.overlay k }

/-- `OverlayDb.delete` (db.py lines 267-268): record `None` for the key in the
overlay only. -/
def OverlayDb.delete (o : OverlayDb) (key : Nat) : OverlayDb :=
  { o with overlay := fun k => if k = key then some none else o.overlay k }

/-- A sequence of mutating operations applied to an `OverlayDb`. -/
inductive DbOp where
  | put (key value : Nat)
  | delete (key : Nat)
deriving DecidableEq, Repr

/-- Apply a sequence of operations left to right. -/
def applyOps (o : OverlayDb) : List DbOp → OverlayDb
  | [] => o
  | DbOp.put k v :: rest => applyOps (o.put k v) rest
  | DbOp.delete k :: rest => applyOps (o.delete k) rest

/-- The specification's view of what a sequence of operations wrote or deleted
through the overlay for a given key: the last operation touching the key wins;
`some (some v)` after a final put of `v`, `some none` after a final delete,
`none` when the key was never touched. -/
def lastOverlayWrite : List DbOp → Nat → Option (Option Nat)
  | [], _ => none
  | DbOp.put k v :: rest, key =>
    match lastOverlayWrite rest key with
    | some r => some r
    | none => if k = key then some (some v) else none
  | DbOp.delete k :: rest, key =>
    match lastOverlayWrite rest key with
    | some r => some r
    | none => if k = key then some none else none

/-! ## Theorems -/

/-- A matching ping response leaves the shutdown flag unchanged. -/
lemma connectSlaveStep_flag_of_match (pingOf : SlaveInfo → String × List Nat)
    (st : MasterState) (info : SlaveInfo)
    (h : pingOf info = (info.id, info.shardMaskList)) :
    (connectSlaveStep pingOf st info).shutdownCalled = st.shutdownCalled := by
  simp [connectSlaveStep, h]

/-- When every ping response matches the configuration, the connect phase
never requests shutdown. -/
lemma connectToSlaves_no_shutdown (pingOf : SlaveInfo → String × List Nat) :
    ∀ (config : List SlaveInfo) (st : MasterState),
      (∀ info ∈ config, pingOf info = (info.id, info.shardMaskList)) →
      st.shutdownCalled = false →
      (connectToSlaves pingOf st config).shutdownCalled = false := by
  intro config
  induction config with
  | nil => intro st _ hst; simpa [connectToSlaves] using hst
  | cons info rest ih =>
    intro st h hst
    rw [connectToSlaves, if_neg (by simp [hst])]
    exact ih (connectSlaveStep pingOf st info)
      (fun i hi => h i (List.mem_cons_of_mem _ hi))
      (by rw [connectSlaveStep_flag_of_match pingOf st info
                (h info (List.mem_cons_self _ _))]
          exact hst)

def configC1 : List SlaveInfo := [⟨"S0", 2130706433, 38000, [1]⟩]

def pingC1 : SlaveInfo → String × List Nat := fun _ => ("S1", [1])

/-- Claim C1 (code bug): a slave whose ping response carries a wrong id does
make bring-up fail (shutdown is requested), yet — the claimed exclusion
failing — the mismatched slave is still added to the slave pool and to the
shard assignment table, because `__connectToSlaves` does not return after
calling `shutdown`. -/
theorem c1_mismatched_slave_still_added :
    (connectToSlaves pingC1 (initialMasterState 1) configC1).shutdownCalled = true
    ∧ (connectToSlaves pingC1 (initialMasterState 1) configC1).slavePool
        = [⟨"S0", 2130706433, 38000, [1]⟩]
    ∧ (connectToSlaves pingC1 (initialMasterState 1) configC1).shardToSlaves
        = [[⟨"S0", 2130706433, 38000, [1]⟩]] := by
  decide

/-- Claim C2 (code bug): `run_master` evaluates the unbound name `dbPath`, so
for every argument vector the spawning step raises `NameError` instead of
building the command line. -/
theorem c2_run_master_raises_nameerror :
    ∀ (args : MasterArgs) (devp2p : Bool),
      run_master args devp2p
        = Except.error "NameError: name dbPath is not defined" := by
  intro args devp2p
  rfl

/-- Claim C3: with ping responses matching the configuration, the mesh phase
is attempted if and only if every shard ID is covered by at least one
connected slave; a coverage gap makes `__initCluster` return before
`__setupSlaveToSlaveConnections`. -/
theorem c3_mesh_iff_full_coverage (pingOf : SlaveInfo → String × List Nat)
    (config : List SlaveInfo) (shardSize : Nat)
    (h : ∀ info ∈ config, pingOf info = (info.id, info.shardMaskList)) :
    (initCluster pingOf config shardSize).2 = true
      ↔ hasAllShards (initCluster pingOf config shardSize).1 = true := by
  have hflag := connectToSlaves_no_shutdown pingOf config
    (initialMasterState shardSize) h rfl
  unfold initCluster
  simp only [hflag, Bool.false_eq_true, if_false]
  by_cases hc :
      hasAllShards (connectToSlaves pingOf (initialMasterState shardSize) config) = true
  · simp [hc]
  · simp [hc]

def pingGood : SlaveInfo → String × List Nat :=
  fun info => (info.id, info.shardMaskList)

def configC3 : List SlaveInfo := [⟨"S2", 2130706433, 38002, [1]⟩]

/-- Witness for claim C3 at a concrete one-slave, one-shard configuration. -/
theorem c3_witness :
    (∀ info ∈ configC3, pingGood info = (info.id, info.shardMaskList))
    ∧ ((initCluster pingGood configC3 1).2 = true
        ↔ hasAllShards (initCluster pingGood configC3 1).1 = true) :=
  ⟨by decide, c3_mesh_iff_full_coverage pingGood configC3 1 (by decide)⟩

/-- When every process of the list still exists at signal time, the signal
loop delivers the signal to each of them in order. -/
lemma signalAll_ok (env : ProcEnv) (sig : Nat) :
    ∀ (l : List Proc) (acc : List (Nat × Nat)),
      (∀ p ∈ l, env.aliveAtSignal p.pid = true) →
      signalAll env sig acc l = Except.ok (acc ++ l.map (fun p => (p.pid, sig))) := by
  intro l
  induction l with
  | nil => intro acc _; simp [signalAll]
  | cons p rest ih =>
    intro acc h
    have hp : env.aliveAtSignal p.pid = true := h p (List.mem_cons_self _ _)
    rw [signalAll]
    simp only [send_signal, hp, if_true]
    rw [ih (acc ++ [(p.pid, sig)]) (fun q hq => h q (List.mem_cons_of_mem _ hq))]
    simp

/-- When the parent exists and every enumerated descendant still exists at
signal time, `kill_child_processes` signals exactly the recursive
descendants, in table order. -/
lemma kill_all_alive (env : ProcEnv) (parent sig : Nat)
    (hsome : (lookupProc env.table parent).isSome = true)
    (hal : ∀ p ∈ childrenRecursive env.table parent, env.aliveAtSignal p.pid = true) :
    kill_child_processes env parent sig
      = Except.ok ((childrenRecursive env.table parent).map (fun p => (p.pid, sig))) := by
  unfold kill_child_processes
  cases hl : lookupProc env.table parent with
  | none => rw [hl] at hsome; simp at hsome
  | some p =>
    rw [signalAll_ok env sig (childrenRecursive env.table parent) [] hal]
    simp

/-- A successful `Cluster.shutdown` always reports the flag as set. -/
lemma Cluster.shutdown_ok_flag (env : ProcEnv) (selfPid : Nat)
    (s s1 : ClusterState) (h : Cluster.shutdown env selfPid s = Except.ok s1) :
    s1.shutdownCalled = true := by
  unfold Cluster.shutdown at h
  cases hk : kill_child_processes env selfPid SIGTERM with
  | ok sigs => rw [hk] at h; cases h; rfl
  | error e => rw [hk] at h; cases h

def envC4 : ProcEnv :=
  ⟨[⟨100, 1⟩, ⟨101, 100⟩, ⟨102, 101⟩], fun p => p != 102⟩

/-- Claim C4 counterexample: the supervisor process 100 has child 101 and
grandchild 102; process 102 has already exited (and been reaped) by the time
the signal is sent, and `shutdown` raises `NoSuchProcess` instead of never
raising, because `send_signal` sits outside the exception handler of
`kill_child_processes`. -/
theorem c4_counterexample :
    (childrenRecursive envC4.table 100).map (fun p => p.pid) = [101, 102]
    ∧ envC4.aliveAtSignal 102 = false
    ∧ Cluster.shutdown envC4 100 ⟨false, []⟩ = Except.error "NoSuchProcess" :=
  ⟨rfl, rfl, rfl⟩

/-- Claim C4 as amended: `shutdown` is idempotent up to the set of delivered
signals, signals every recursive descendant (not only direct children) when
the targets still exist, and swallows a failing supervisor lookup; but a
target that exited between enumeration and signalling makes it raise (the
counterexample), since only the command-line logging is inside the exception
handler. -/
theorem c4_shutdown_idempotent_recursive :
    (∀ (env : ProcEnv) (selfPid : Nat) (s s1 : ClusterState),
       Cluster.shutdown env selfPid s = Except.ok s1 →
       ∃ s2, Cluster.shutdown env selfPid s1 = Except.ok s2
         ∧ s2.shutdownCalled = s1.shutdownCalled
         ∧ s2.signalled.toFinset = s1.signalled.toFinset)
    ∧ (∀ (env : ProcEnv) (parent sig : Nat),
       (lookupProc env.table parent).isSome = true →
       (∀ p ∈ childrenRecursive env.table parent, env.aliveAtSignal p.pid = true) →
       kill_child_processes env parent sig
         = Except.ok ((childrenRecursive env.table parent).map (fun p => (p.pid, sig))))
    ∧ (∀ (env : ProcEnv) (parent sig : Nat),
       lookupProc env.table parent = none →
       kill_child_processes env parent sig = Except.ok []) := by
  refine ⟨?_, ?_, ?_⟩
  · intro env selfPid s s1 h
    unfold Cluster.shutdown at h ⊢
    cases hk : kill_child_processes env selfPid SIGTERM with
    | ok sigs =>
      rw [hk] at h
      cases h
      refine ⟨_, rfl, rfl, ?_⟩
      simp [List.toFinset_append, Finset.union_assoc]
    | error e => rw [hk] at h; cases h
  · intro env parent sig hsome hal
    exact kill_all_alive env parent sig hsome hal
  · intro env parent sig hnone
    unfold kill_child_processes
    rw [hnone]

def envC4good : ProcEnv :=
  ⟨[⟨100, 1⟩, ⟨101, 100⟩, ⟨102, 101⟩], fun _ => true⟩

/-- Witness for the amended claim C4: with all three processes alive, the
supervisor at pid 100 signals both its child 101 and its grandchild 102. -/
theorem c4_witness :
    kill_child_processes envC4good 100 SIGTERM
      = Except.ok [(101, SIGTERM), (102, SIGTERM)] := by
  have h := c4_shutdown_idempotent_recursive.2.1 envC4good 100 SIGTERM
    (by rfl) (by decide)
  exact h.trans (by rfl)

/-- Claim C7: observing a process exit triggers cluster-wide shutdown
(signalling every tracked descendant) when shutdown was not already initiated
locally; when it was, the observation changes nothing; and once a first exit
has triggered shutdown, observing a further exit is a no-op. -/
theorem c7_first_exit_triggers_shutdown :
    ∀ (env : ProcEnv) (selfPid : Nat) (s : ClusterState),
      (s.shutdownCalled = true → Cluster.waitAndShutdown env selfPid s = Except.ok s)
      ∧ (s.shutdownCalled = false →
          (lookupProc env.table selfPid).isSome = true →
          (∀ p ∈ childrenRecursive env.table selfPid, env.aliveAtSignal p.pid = true) →
          Cluster.waitAndShutdown env selfPid s
            = Except.ok ⟨true, s.signalled
                ++ (childrenRecursive env.table selfPid).map (fun p => (p.pid, SIGTERM))⟩)
      ∧ (∀ s1, s.shutdownCalled = false →
          Cluster.waitAndShutdown env selfPid s = Except.ok s1 →
          Cluster.waitAndShutdown env selfPid s1 = Except.ok s1) := by
  intro env selfPid s
  refine ⟨?_, ?_, ?_⟩
  · intro h; simp [Cluster.waitAndShutdown, h]
  · intro h hsome hal
    rw [Cluster.waitAndShutdown, if_neg (by simp [h])]
    unfold Cluster.shutdown
    rw [kill_all_alive env selfPid SIGTERM hsome hal]
  · intro s1 h h1
    rw [Cluster.waitAndShutdown, if_neg (by simp [h])] at h1
    have hflag := Cluster.shutdown_ok_flag env selfPid s s1 h1
    simp [Cluster.waitAndShutdown, hflag]

/-- Witness for claim C7: with shutdown not yet initiated, observing an exit
in the concrete three-process tree signals child and grandchild. -/
theorem c7_witness :
    Cluster.waitAndShutdown envC4good 100 ⟨false, []⟩
      = Except.ok ⟨true, [(101, SIGTERM), (102, SIGTERM)]⟩ := by
  have h := (c7_first_exit_triggers_shutdown envC4good 100 ⟨false, []⟩).2.1
    rfl (by rfl) (by decide)
  exact h.trans (by rfl)

def cfgC5 : List RawSlave := [⟨"S0", 1, 38000, [2]⟩, ⟨"S1", 2, 38001, [3]⟩]

def s5a : SlaveInfo := ⟨"S0", 1, 38000, [2]⟩

def s5b : SlaveInfo := ⟨"S1", 2, 38001, [3]⟩

def respEmpty : SlaveInfo → List String := fun _ => ["", ""]

/-- Claim C5 counterexample: in a two-slave cluster the mesh payload sent to
slave S0 is the entire configured slave list — it contains S0 itself — and so
differs from the configured list with the recipient excluded. -/
theorem c5_counterexample :
    setupSlaveToSlaveConnections cfgC5 respEmpty (initialMasterState 0) [] [s5a, s5b]
      = Except.ok (initialMasterState 0,
          [(s5a, [s5a, s5b]), (s5b, [s5a, s5b])])
    ∧ [s5a, s5b] ≠ (getSlaveInfoList cfgC5).filter (fun s => decide (s ≠ s5a)) :=
  ⟨rfl, by decide⟩

/-- Claim C5 as amended: the peer-mesh RPC sent to every active slave carries
the connection info of all configured slaves — the full
`getSlaveInfoList` output, including the recipient itself. -/
theorem c5_payload_is_full_config_list :
    ∀ (config : List RawSlave) (respOf : SlaveInfo → List String)
      (pool : List SlaveInfo) (st : MasterState)
      (sent0 : List (SlaveInfo × List SlaveInfo))
      (st' : MasterState) (sent' : List (SlaveInfo × List SlaveInfo)),
      setupSlaveToSlaveConnections config respOf st sent0 pool = Except.ok (st', sent') →
      (∀ pair ∈ sent0, pair.2 = getSlaveInfoList config) →
      ∀ pair ∈ sent', pair.2 = getSlaveInfoList config := by
  intro config respOf pool
  induction pool with
  | nil =>
    intro st sent0 st' sent' h h0
    rw [setupSlaveToSlaveConnections] at h
    cases h
    exact h0
  | cons slave rest ih =>
    intro st sent0 st' sent' h h0
    rw [setupSlaveToSlaveConnections] at h
    by_cases hs : st.shutdownCalled = true
    · rw [if_pos hs] at h
      cases h
      exact h0
    · rw [if_neg hs] at h
      cases hr : sendConnectToSlaves (getSlaveInfoList config) (respOf slave) with
      | error e => rw [hr] at h; cases h
      | ok success =>
        rw [hr] at h
        replace h : setupSlaveToSlaveConnections config respOf
            (if success then st else { st with shutdownCalled := true })
            (sent0 ++ [(slave, getSlaveInfoList config)]) rest
            = Except.ok (st', sent') := h
        refine ih _ _ st' sent' h ?_
        intro pair hpair
        rcases List.mem_append.mp hpair with h1 | h2
        · exact h0 pair h1
        · rw [List.mem_singleton.mp h2]

/-- Witness for the amended claim C5: the payload delivered to slave S0 in the
concrete two-slave run equals the full configured list. -/
theorem c5_witness : ([s5a, s5b] : List SlaveInfo) = getSlaveInfoList cfgC5 :=
  c5_payload_is_full_config_list cfgC5 respEmpty [s5a, s5b]
    (initialMasterState 0) [] (initialMasterState 0)
    [(s5a, [s5a, s5b]), (s5b, [s5a, s5b])]
    (by rfl) (by simp) (s5a, [s5a, s5b]) (by decide)

/-- Unfolding of `sendConnectToSlaves` to a plain conditional. -/
lemma sendConnectToSlaves_eq (t : List SlaveInfo) (r : List String) :
    sendConnectToSlaves t r
      = if r.length == t.length then Except.ok (r.all (fun s => s.isEmpty))
        else Except.error "AssertionError" := by
  unfold sendConnectToSlaves check
  cases h : r.length == t.length <;> simp [h] <;> rfl

/-- The mesh phase run from a state already flagged for shutdown does
nothing. -/
lemma setup_frozen (config : List RawSlave) (respOf : SlaveInfo → List String)
    (st : MasterState) (sent : List (SlaveInfo × List SlaveInfo))
    (pool : List SlaveInfo) (hs : st.shutdownCalled = true) :
    setupSlaveToSlaveConnections config respOf st sent pool = Except.ok (st, sent) := by
  cases pool with
  | nil => rfl
  | cons slave rest => rw [setupSlaveToSlaveConnections, if_pos hs]

/-- If some slave of the pool reports a mesh failure, a completed mesh phase
ends with the shutdown flag set. -/
lemma setup_shutdown_of_failure (config : List RawSlave)
    (respOf : SlaveInfo → List String) :
    ∀ (pool : List SlaveInfo) (st : MasterState)
      (sent : List (SlaveInfo × List SlaveInfo))
      (st' : MasterState) (sent' : List (SlaveInfo × List SlaveInfo)),
      setupSlaveToSlaveConnections config respOf st sent pool = Except.ok (st', sent') →
      (∃ s, s ∈ pool
         ∧ sendConnectToSlaves (getSlaveInfoList config) (respOf s) = Except.ok false) →
      st'.shutdownCalled = true := by
  intro pool
  induction pool with
  | nil =>
    intro st sent st' sent' h hex
    rcases hex with ⟨s, hs, _⟩
    cases hs
  | cons slave rest ih =>
    intro st sent st' sent' h hex
    rw [setupSlaveToSlaveConnections] at h
    by_cases hs : st.shutdownCalled = true
    · rw [if_pos hs] at h
      cases h
      exact hs
    · rw [if_neg hs] at h
      cases hr : sendConnectToSlaves (getSlaveInfoList config) (respOf slave) with
      | error e => rw [hr] at h; cases h
      | ok success =>
        rw [hr] at h
        cases success with
        | true =>
          replace h : setupSlaveToSlaveConnections config respOf st
              (sent ++ [(slave, getSlaveInfoList config)]) rest
              = Except.ok (st', sent') := h
          rcases hex with ⟨s, hmem, hfail⟩
          rcases List.mem_cons.mp hmem with h1 | h2
          · rw [h1] at hfail
            rw [hfail] at hr
            cases hr
          · exact ih st _ st' sent' h ⟨s, h2, hfail⟩
        | false =>
          replace h : setupSlaveToSlaveConnections config respOf
              { st with shutdownCalled := true }
              (sent ++ [(slave, getSlaveInfoList config)]) rest
              = Except.ok (st', sent') := h
          rw [setup_frozen config respOf _ _ rest rfl] at h
          cases h
          rfl

/-- Claim C6: the per-slave mesh RPC result is `True` iff the result list has
the mandated length and every entry is empty; a result list of the wrong
length raises; and any slave reporting failure makes the mesh phase request
shutdown. -/
theorem c6_mesh_result_semantics :
    (∀ (targets : List SlaveInfo) (results : List String),
       sendConnectToSlaves targets results = Except.ok true
         ↔ (results.length = targets.length
             ∧ results.all (fun r => r.isEmpty) = true))
    ∧ (∀ (targets : List SlaveInfo) (results : List String) (b : Bool),
       sendConnectToSlaves targets results = Except.ok b →
       results.length = targets.length)
    ∧ (∀ (config : List RawSlave) (respOf : SlaveInfo → List String)
         (st : MasterState) (pool : List SlaveInfo)
         (st' : MasterState) (sent' : List (SlaveInfo × List SlaveInfo)),
       setupSlaveToSlaveConnections config respOf st [] pool = Except.ok (st', sent') →
       (∃ s, s ∈ pool
          ∧ sendConnectToSlaves (getSlaveInfoList config) (respOf s) = Except.ok false) →
       st'.shutdownCalled = true) := by
  refine ⟨?_, ?_, ?_⟩
  · intro targets results
    rw [sendConnectToSlaves_eq]
    by_cases h : results.length = targets.length
    · simp [h]
    · simp [h, Nat.beq_eq]
  · intro targets results b h
    rw [sendConnectToSlaves_eq] at h
    by_cases hl : results.length = targets.length
    · exact hl
    · rw [if_neg (by simpa [Nat.beq_eq] using hl)] at h
      cases h
  · intro config respOf st pool st' sent' h hex
    exact setup_shutdown_of_failure config respOf pool st [] st' sent' h hex

def respFail : SlaveInfo → List String := fun _ => ["connection refused", ""]

/-- Witness for claim C6: in the concrete two-slave cluster where slave S0
reports a mesh error, the completed mesh phase ends with shutdown
requested. -/
theorem c6_witness : (MasterState.mk [] [] true).shutdownCalled = true :=
  c6_mesh_result_semantics.2.2 cfgC5 respFail (initialMasterState 0) [s5a, s5b]
    ⟨[], [], true⟩ [(s5a, getSlaveInfoList cfgC5)] (by rfl)
    ⟨s5a, by decide, by rfl⟩

/-- The retry loop of `__connect`: if the first K attempts fail and attempt K
succeeds, the loop stops at attempt K, having slept once after each of the K
failures. -/
lemma connectAttempts_spec (attemptOf : Nat → Option (Nat × Nat)) (K : Nat)
    (conn : Nat × Nat)
    (hfail : ∀ i, i < K → attemptOf i = none)
    (hsucc : attemptOf K = some conn) :
    ∀ (fuel start : Nat), start ≤ K → K < start + fuel →
      connectAttempts attemptOf start fuel = some (conn, K) := by
  intro fuel
  induction fuel with
  | zero => intro start h1 h2; omega
  | succ n ih =>
    intro start h1 h2
    rw [connectAttempts]
    by_cases hs : start = K
    · subst hs
      rw [hsucc]
    · have hlt : start < K := lt_of_le_of_ne h1 hs
      rw [hfail start hlt]
      exact ih (start + 1) hlt (by omega)

/-- Claim C8: for every attempt oracle failing on the first K attempts and
succeeding on attempt K+1, `__connect` terminates with that connection after
exactly K one-unit sleeps; no attempt bound is enforced (K is arbitrary) and
no connection-establishment failure is surfaced. -/
theorem c8_retry_until_success (attemptOf : Nat → Option (Nat × Nat)) (K : Nat)
    (conn : Nat × Nat)
    (hfail : ∀ i, i < K → attemptOf i = none)
    (hsucc : attemptOf K = some conn) :
    MasterServer.connect attemptOf (K + 1) = some (conn, K) :=
  connectAttempts_spec attemptOf K conn hfail hsucc (K + 1) 0 (Nat.zero_le K) (by omega)

def attemptC8 : Nat → Option (Nat × Nat) := fun i => if i < 2 then none else some (7, 9)

/-- Witness for claim C8: two failing attempts, then success on the third. -/
theorem c8_witness : MasterServer.connect attemptC8 3 = some ((7, 9), 2) :=
  c8_retry_until_success attemptC8 2 (7, 9)
    (fun i hi => by interval_cases i <;> rfl) (by rfl)

/-- Claim C9: `refreshConnections` closes exactly the active peers whose
address is absent from the discovery list, and initiates an outbound
connection to a listed, not-yet-active address iff the node's own address is
strictly less than it. -/
theorem c9_refresh_policy (selfIp : String) (selfPort : Nat)
    (pool : List PeerEntry) (peers : List String) :
    (∀ p, p ∈ (refreshConnections selfIp selfPort pool peers).1
        ↔ (p ∈ pool ∧ addrOf p ∉ peers))
    ∧ (∀ a, a ∈ (refreshConnections selfIp selfPort pool peers).2
        ↔ (a ∈ peers ∧ a ∉ pool.map addrOf
            ∧ selfIp ++ ":" ++ toString selfPort < a)) := by
  constructor
  · intro p
    simp [refreshConnections, List.mem_filter, List.elem_iff]
  · intro a
    simp only [refreshConnections, List.mem_filter, List.elem_iff, List.mem_map,
      Bool.not_eq_true', decide_eq_true_eq, Bool.not_eq_true, decide_eq_false_iff_not]
    constructor
    · rintro ⟨⟨ha, hnot⟩, hlt⟩
      exact ⟨ha, by simpa using hnot, hlt⟩
    · rintro ⟨ha, hnot, hlt⟩
      exact ⟨⟨ha, by simpa using hnot⟩, hlt⟩

/-- Witness for claim C9: a node with the lesser address initiates the
connection to a listed address that is not yet active. -/
theorem c9_witness :
    ("10.0.0.1:38000" ∈ (refreshConnections "10.0.0.0" 38000 [] ["10.0.0.1:38000"]).2
      ↔ ("10.0.0.1:38000" ∈ ["10.0.0.1:38000"]
          ∧ "10.0.0.1:38000" ∉ ([] : List PeerEntry).map addrOf
          ∧ "10.0.0.0" ++ ":" ++ toString 38000 < "10.0.0.1:38000")) :=
  (c9_refresh_policy "10.0.0.0" 38000 [] ["10.0.0.1:38000"]).2 "10.0.0.1:38000"

/-- Overlay operations never change the wrapped database. -/
lemma applyOps_db : ∀ (ops : List DbOp) (o : OverlayDb),
    (applyOps o ops)._db = o._db := by
  intro ops
  induction ops with
  | nil => intro o; rfl
  | cons op rest ih =>
    intro o
    cases op with
    | put k v => rw [applyOps]; exact ih _
    | delete k => rw [applyOps]; exact ih _

/-- When the operation sequence never touched a key through the overlay, the
final overlay entry for it is the initial one. -/
lemma applyOps_overlay_none : ∀ (ops : List DbOp) (o : OverlayDb) (key : Nat),
    lastOverlayWrite ops key = none →
    (applyOps o ops).overlay key = o.overlay key := by
  intro ops
  induction ops with
  | nil => intro o key _; rfl
  | cons op rest ih =>
    intro o key h
    cases op with
    | put k v =>
      rw [lastOverlayWrite] at h
      cases hrest : lastOverlayWrite rest key with
      | some r2 => rw [hrest] at h; cases h
      | none =>
        rw [hrest] at h
        rw [applyOps, ih (o.put k v) key hrest]
        by_cases hk : k = key
        · rw [if_pos hk] at h; cases h
        · simp only [OverlayDb.put]
          rw [if_neg (fun hh => hk hh.symm)]
    | delete k =>
      rw [lastOverlayWrite] at h
      cases hrest : lastOverlayWrite rest key with
      | some r2 => rw [hrest] at h; cases h
      | none =>
        rw [hrest] at h
        rw [applyOps, ih (o.delete k) key hrest]
        by_cases hk : k = key
        · rw [if_pos hk] at h; cases h
        · simp only [OverlayDb.delete]
          rw [if_neg (fun hh => hk hh.symm)]

/-- When the sequence did write or delete a key through the overlay, the final
overlay entry for it is the last such write. -/
lemma applyOps_overlay_some : ∀ (ops : List DbOp) (o : OverlayDb) (key : Nat)
    (r : Option Nat),
    lastOverlayWrite ops key = some r →
    (applyOps o ops).overlay key = some r := by
  intro ops
  induction ops with
  | nil => intro o key r h; cases h
  | cons op rest ih =>
    intro o key r h
    cases op with
    | put k v =>
      rw [lastOverlayWrite] at h
      cases hrest : lastOverlayWrite rest key with
      | some r2 =>
        rw [hrest] at h
        cases h
        rw [applyOps]; exact ih (o.put k v) key _ hrest
      | none =>
        rw [hrest] at h
        by_cases hk : k = key
        · rw [if_pos hk] at h
          cases h
          rw [applyOps, applyOps_overlay_none rest (o.put k v) key hrest]
          simp [OverlayDb.put, hk]
        · rw [if_neg hk] at h; cases h
    | delete k =>
      rw [lastOverlayWrite] at h
      cases hrest : lastOverlayWrite rest key with
      | some r2 =>
        rw [hrest] at h
        cases h
        rw [applyOps]; exact ih (o.delete k) key _ hrest
      | none =>
        rw [hrest] at h
        by_cases hk : k = key
        · rw [if_pos hk] at h
          cases h
          rw [applyOps, applyOps_overlay_none rest (o.delete k) key hrest]
          simp [OverlayDb.delete, hk]
        · rw [if_neg hk] at h; cases h

/-- Claim C10: a sequence of `put`/`delete` operations leaves the wrapped
database unchanged; `get` returns the overlay value for every key the
sequence wrote or deleted through the overlay (`None` after a final delete,
whatever the wrapped database holds), and the wrapped database's value for
every untouched key. -/
theorem c10_overlay_frame_and_get (db : List (Nat × Nat)) (ops : List DbOp)
    (key : Nat) :
    (applyOps ⟨db, fun _ => none⟩ ops)._db = db
    ∧ (∀ v, lastOverlayWrite ops key = some v →
        (applyOps ⟨db, fun _ => none⟩ ops).get key = v)
    ∧ (lastOverlayWrite ops key = none →
        (applyOps ⟨db, fun _ => none⟩ ops).get key = dbGet db key) := by
  refine ⟨applyOps_db ops _, ?_, ?_⟩
  · intro v h
    unfold OverlayDb.get
    rw [applyOps_overlay_some ops ⟨db, fun _ => none⟩ key v h]
  · intro h
    unfold OverlayDb.get
    rw [applyOps_overlay_none ops ⟨db, fun _ => none⟩ key h]
    show dbGet (applyOps ⟨db, fun _ => none⟩ ops)._db key = dbGet db key
    rw [applyOps_db ops ⟨db, fun _ => none⟩]

/-- Witness for claim C10: deleting key 1 through the overlay leaves the
wrapped store (which binds 1 to 5) unchanged, yet `get 1` returns nothing. -/
theorem c10_witness :
    (applyOps ⟨[(1, 5)], fun _ => none⟩ [DbOp.delete 1])._db = [(1, 5)]
    ∧ (applyOps ⟨[(1, 5)], fun _ => none⟩ [DbOp.delete 1]).get 1 = none
    ∧ dbGet [(1, 5)] 1 = some 5 :=
  ⟨(c10_overlay_frame_and_get [(1, 5)] [DbOp.delete 1] 1).1,
   (c10_overlay_frame_and_get [(1, 5)] [DbOp.delete 1] 1).2.1 none (by rfl),
   by rfl⟩

end QuarkChain
